import Mathlib

/-!
Shallow embedding of the certificate-authenticated TCP router core of the
repository: the authorization / routing layer (`pkg/connector/database.go`:
`GetBackendHostByConnectID`, `IsUserAuthorized`, `isUserInTeams`,
`RouteConnection`), the identity extraction layer
(`pkg/mtls-proxy/identity.go`: `parseSPIFFEURI`, `ExtractUserIdentity`,
`matchesIssuer`, `ValidateIssuerMatch`) and the per-connection protocol
layer (`pkg/mtls-proxy/proxy.go`: `readConnectID`, `sendError`,
`handleConnection`, `proxyToBackend`).

Database tables (`backend_hosts`, `teams`) are modelled as lists of records;
the SQL point lookup becomes `List.find?` and the `EXISTS` team query becomes
`List.any`.  Strings are Lean `String`s; the Go `strings` helpers are
re-implemented below by structural recursion over the character list so that
every definition evaluates inside the kernel.  Network reads are modelled by
the list of successive chunks `conn.Read` returns; the backend dial is
abstracted as a boolean oracle on the dialed address.
-/

namespace Mtlsproxy

deriving instance DecidableEq for Except

/-! ### Go string primitives (character-level, as used by the source) -/

/-- Go `strings.HasPrefix(s, pre)`. -/
def hasPfx (s pre : String) : Bool := pre.data.isPrefixOf s.data

/-- Go `strings.HasSuffix(s, suf)`. -/
def hasSfx (s suf : String) : Bool := suf.data.isSuffixOf s.data

/-- Go `strings.TrimPrefix(s, pre)`: drops `pre` when it is a prefix of `s`,
otherwise returns `s` unchanged. -/
def trimPfx (s pre : String) : String :=
  if hasPfx s pre then String.mk (s.data.drop pre.data.length) else s

/-- Occurrence test used by `containsSub`: does `t` occur contiguously in the
second list? -/
def subOccurs (t : List Char) : List Char → Bool
  | [] => t.isEmpty
  | c :: rest => t.isPrefixOf (c :: rest) || subOccurs t rest

/-- Go `strings.Contains(s, sub)`. -/
def containsSub (s sub : String) : Bool := subOccurs sub.data s.data

/-- Go `strings.EqualFold` restricted to ASCII case folding (the inputs in
this code base are domain names). -/
def eqFold (a b : String) : Bool := a.data.map Char.toLower == b.data.map Char.toLower

/-- Splitting a character list at every occurrence of `sep`; the semantics of
Go `strings.Split` with a one-character separator (empty input gives one
empty field, a leading or trailing separator produces an empty field). -/
def splitChars (sep : Char) : List Char → List (List Char)
  | [] => [[]]
  | c :: rest =>
    match splitChars sep rest with
    | [] => [[]]
    | g :: gs => if c = sep then [] :: g :: gs else (c :: g) :: gs

/-- Go `strings.Split(s, sep)` for a one-character separator. -/
def goSplit (s : String) (sep : Char) : List String := (splitChars sep s.data).map String.mk

/-- Dropping one trailing occurrence of `c`, the pattern
`if len(s) > 0 && s[len(s)-1] == c { s = s[:len(s)-1] }` from
`readConnectID`. -/
def chopLast (c : Char) (s : String) : String :=
  if s.data.getLast? = some c then String.mk s.data.dropLast else s

/-! ### Data model (`pkg/connector/database.go`, `pkg/mtls-proxy/identity.go`) -/

/-- Row of the `backend_hosts` table as scanned by
`GetBackendHostByConnectID`. -/
structure BackendHost where
  connectID : String
  internalIPAddr : String
  orgID : String
  userIDs : List String
  teamIDs : List String
deriving DecidableEq

/-- Row of the `teams` table as consulted by `isUserInTeams`. -/
structure Team where
  teamID : String
  orgID : String
  userIDs : List String
deriving DecidableEq

/-- State of the two database tables the authorization layer reads. -/
structure DB where
  backendHosts : List BackendHost
  teams : List Team

/-- `RouteTarget` from `database.go`. -/
structure RouteTarget where
  backendAddr : String
  connectID : String
deriving DecidableEq

/-- `UserIdentity` from `identity.go`. -/
structure UserIdentity where
  userID : String
  orgID : String
  issuer : String
deriving DecidableEq

/-- SAN URI as the relevant fields of Go `url.URL`. -/
structure URL where
  scheme : String
  host : String
  path : String
deriving DecidableEq

/-! ### Error message texts (the `fmt.Errorf` formats of the source) -/

/-- Message of `GetBackendHostByConnectID` when the `connect_id` has no row. -/
def msgNoHost (connectID : String) : String :=
  "no backend host found for connect_id \x27" ++ (connectID ++ "\x27")

/-- Message of `RouteConnection` when the authorization check returns false. -/
def msgNotAuthorized (userID connectID : String) : String :=
  "user \x27" ++ (userID ++ ("\x27 is not authorized to access host \x27" ++ (connectID ++ "\x27")))

/-- Wrapper `RouteConnection` puts around an error of `IsUserAuthorized`. -/
def msgAuthCheckFailed (e : String) : String := "authorization check failed: " ++ e

/-- Message of `RouteConnection` when the host has an empty internal address. -/
def msgNoInternalAddr (connectID : String) : String :=
  "backend host \x27" ++ (connectID ++ "\x27 has no internal IP address")

/-- Wrapper `IsUserAuthorized` puts around an error of `isUserInTeams`. -/
def msgTeamCheckFailed (e : String) : String := "failed to check team membership: " ++ e

/-- Message of `ExtractUserIdentity` in every failure case. -/
def msgNoValidSpiffe : String := "no valid SPIFFE URI found in certificate"

/-- Message of `parseSPIFFEURI` for a scheme other than `spiffe`. -/
def msgBadScheme (got : String) : String :=
  "invalid URI scheme: expected \x27spiffe\x27, got \x27" ++ (got ++ "\x27")

/-- Message of `parseSPIFFEURI` when the URI host is not the expected issuer. -/
def msgIssuerMismatch (expected got : String) : String :=
  "issuer mismatch: expected \x27" ++ (expected ++ ("\x27, got \x27" ++ (got ++ "\x27")))

/-- Message of `parseSPIFFEURI` when the path does not have four segments. -/
def msgBadPathFormat (path : String) : String :=
  "invalid SPIFFE path format: expected \x27/orgs/<org-id>/users/<user-id>\x27, got \x27" ++ (path ++ "\x27")

/-- Message of `parseSPIFFEURI` when the first segment is not `orgs`. -/
def msgBadSeg0 (got : String) : String :=
  "invalid SPIFFE path: expected \x27orgs\x27 as first segment, got \x27" ++ (got ++ "\x27")

/-- Message of `parseSPIFFEURI` when the third segment is not `users`. -/
def msgBadSeg2 (got : String) : String :=
  "invalid SPIFFE path: expected \x27users\x27 as third segment, got \x27" ++ (got ++ "\x27")

/-- Message of `parseSPIFFEURI` for an empty org id. -/
def msgEmptyOrg : String := "org-id is empty"

/-- Message of `parseSPIFFEURI` for an empty user id. -/
def msgEmptyUser : String := "user-id is empty"

/-- Message of `ValidateIssuerMatch` when both issuer checks fail. -/
def msgIssuerValidationFailed (expectedIssuer : String) : String :=
  "issuer validation failed: certificate issuer does not match expected issuer \x27" ++ (expectedIssuer ++ "\x27")

/-! ### Authorization store (`pkg/connector/database.go`) -/

/-- `GetBackendHostByConnectID`: the primary-key lookup
`SELECT ... FROM backend_hosts WHERE connect_id = $1`; `pgx.ErrNoRows`
becomes the "no backend host found" error. -/
def GetBackendHostByConnectID (db : DB) (connectID : String) : Except String BackendHost :=
  match db.backendHosts.find? (fun h => h.connectID == connectID) with
  | some host => .ok host
  | none => .error (msgNoHost connectID)

/-- `isUserInTeams`: the `SELECT EXISTS(... FROM teams WHERE org_id = $1 AND
team_id IN (...) AND $2 = ANY(user_ids))` query over the list of team IDs. -/
def isUserInTeams (db : DB) (userID orgID : String) (teamIDs : List String) : Except String Bool :=
  if teamIDs.isEmpty then .ok false
  else .ok (db.teams.any (fun t =>
    t.orgID == orgID && teamIDs.contains t.teamID && t.userIDs.contains userID))

/-- `IsUserAuthorized`: fetch the host, require the organization to match,
then a direct grant via `user_ids` or, when `team_ids` is non-empty, a team
grant via `isUserInTeams`. -/
def IsUserAuthorized (db : DB) (userID orgID connectID : String) : Except String Bool :=
  match GetBackendHostByConnectID db connectID with
  | .error e => .error e
  | .ok host =>
    if host.orgID ≠ orgID then .ok false
    else if host.userIDs.contains userID then .ok true
    else if 0 < host.teamIDs.length then
      match isUserInTeams db userID orgID host.teamIDs with
      | .error e => .error (msgTeamCheckFailed e)
      | .ok true => .ok true
      | .ok false => .ok false
    else .ok false

/-- `RouteConnection`: authorization check, then a re-fetch of the host and
the internal-address check. -/
def RouteConnection (db : DB) (userID orgID connectID : String) : Except String RouteTarget :=
  match IsUserAuthorized db userID orgID connectID with
  | .error e => .error (msgAuthCheckFailed e)
  | .ok false => .error (msgNotAuthorized userID connectID)
  | .ok true =>
    match GetBackendHostByConnectID db connectID with
    | .error e => .error e
    | .ok host =>
      if host.internalIPAddr = "" then .error (msgNoInternalAddr connectID)
      else .ok { backendAddr := host.internalIPAddr, connectID := connectID }

/-! ### Identity extraction (`pkg/mtls-proxy/identity.go`) -/

/-- Path analysis step of `parseSPIFFEURI` on the split segments: the four
checks `len(parts) == 4`, `parts[0] == "orgs"`, `parts[2] == "users"` and the
two non-emptiness checks, in source order. -/
def parsePathSegs (host pathStr : String) : List String → Except String UserIdentity
  | [p0, p1, p2, p3] =>
    if p0 ≠ "orgs" then .error (msgBadSeg0 p0)
    else if p2 ≠ "users" then .error (msgBadSeg2 p2)
    else if p1 = "" then .error msgEmptyOrg
    else if p3 = "" then .error msgEmptyUser
    else .ok { userID := p3, orgID := p1, issuer := host }
  | _ => .error (msgBadPathFormat pathStr)

/-- `parseSPIFFEURI`: exact scheme check, issuer (host) check, then the path
split on `/` after dropping one leading slash must be exactly
`orgs/<org-id>/users/<user-id>` with both ids non-empty. -/
def parseSPIFFEURI (uri : URL) (expectedIssuer : String) : Except String UserIdentity :=
  if uri.scheme ≠ "spiffe" then .error (msgBadScheme uri.scheme)
  else if uri.host ≠ expectedIssuer then .error (msgIssuerMismatch expectedIssuer uri.host)
  else parsePathSegs uri.host uri.path (goSplit (trimPfx uri.path "/") '/')

/-- `ExtractUserIdentity` on the certificate's SAN URI list: scan for URIs
whose scheme starts with `spiffe`, return the first that parses, and swallow
every per-URI parse error into the single generic failure. -/
def ExtractUserIdentity : List URL → String → Except String UserIdentity
  | [], _ => .error msgNoValidSpiffe
  | uri :: rest, expectedIssuer =>
    if hasPfx uri.scheme "spiffe" then
      match parseSPIFFEURI uri expectedIssuer with
      | .ok identity => .ok identity
      | .error _ => ExtractUserIdentity rest expectedIssuer
    else ExtractUserIdentity rest expectedIssuer

/-- `matchesIssuer`: strip a `*.` wildcard from both sides, then case-folded
equality or a `.`-separated domain-suffix match. -/
def matchesIssuer (domain expectedIssuer : String) : Bool :=
  let domain := trimPfx domain "*."
  let expectedIssuer := trimPfx expectedIssuer "*."
  eqFold domain expectedIssuer || hasSfx domain ("." ++ expectedIssuer)

/-- `ValidateIssuerMatch` on the certificate's Issuer distinguished name,
given as its `CommonName` field and its rendered string
(`cert.Issuer.String()`, produced by the X.509 library): a non-empty common
name matching via `matchesIssuer` passes, otherwise a substring occurrence of
the expected issuer anywhere in the rendered DN passes. -/
def ValidateIssuerMatch (issuerCommonName issuerDN expectedIssuer : String) : Except String Unit :=
  if issuerCommonName ≠ "" ∧ matchesIssuer issuerCommonName expectedIssuer = true then .ok ()
  else if containsSub issuerDN expectedIssuer then .ok ()
  else .error (msgIssuerValidationFailed expectedIssuer)

/-! ### Connection handler (`pkg/mtls-proxy/proxy.go`) -/

/-- `readConnectID`: the connection is modelled by the list of chunks the
successive `conn.Read` calls would deliver (each at most 256 bytes, the
buffer size).  The code performs exactly one `Read`; an empty chunk list
models a read that fails (deadline expired before any data).  A trailing
line feed and then a trailing carriage return are dropped, and an empty
result is the `empty connect_id` error. -/
def readConnectID (chunks : List String) : Except String String :=
  match chunks with
  | [] => .error "read timed out"
  | chunk :: _ =>
    let connectID := chopLast '\r' (chopLast '\n' chunk)
    if connectID = "" then .error "empty connect_id" else .ok connectID

/-- `sendError`: the single line written to the client on a routing failure. -/
def sendErrorLine (message : String) : String := "ERROR: " ++ (message ++ "\n")

/-- Client-visible writes of `handleConnection` composed with
`proxyToBackend`: identity failures and `readConnectID` failures abort
silently; a `RouteConnection` error is answered with one
`ERROR: routing failed: ...` line; on success the backend dial (abstracted
by the oracle `dialOK` on the dialed address) either fails, which aborts
silently, or succeeds, after which `OK` is written. -/
def handleConnectionClientWrites (idRes : Except String UserIdentity)
    (chunks : List String) (db : DB) (dialOK : String → Bool) : List String :=
  match idRes with
  | .error _ => []
  | .ok identity =>
    match readConnectID chunks with
    | .error _ => []
    | .ok connectID =>
      match RouteConnection db identity.userID identity.orgID connectID with
      | .error e => [sendErrorLine ("routing failed: " ++ e)]
      | .ok target => if dialOK target.backendAddr then ["OK\n"] else []

/-! ### Helper lemmas -/

/-- First four characters of a string; enough to tell every pair of error
texts of this code base apart. -/
def head4 (s : String) : List Char := s.data.take 4

theorem head4_append (a b : String) (h : 4 ≤ a.data.length) :
    head4 (a ++ b) = head4 a := by
  simp [head4, String.data_append, List.take_append_of_le_length h]

theorem ne_of_head4_ne {s t : String} (h : head4 s ≠ head4 t) : s ≠ t :=
  fun e => h (by rw [e])

theorem isUserAuthorized_eq_ok (db : DB) (userID orgID connectID : String)
    (host : BackendHost) (hfind : GetBackendHostByConnectID db connectID = .ok host) :
    IsUserAuthorized db userID orgID connectID =
      .ok (host.orgID == orgID &&
        (host.userIDs.contains userID ||
          db.teams.any fun t =>
            t.orgID == orgID && host.teamIDs.contains t.teamID && t.userIDs.contains userID)) := by
  have hbody : IsUserAuthorized db userID orgID connectID =
      (if host.orgID ≠ orgID then (.ok false : Except String Bool)
       else if host.userIDs.contains userID then .ok true
       else if 0 < host.teamIDs.length then
         match isUserInTeams db userID orgID host.teamIDs with
         | .error e => .error (msgTeamCheckFailed e)
         | .ok true => .ok true
         | .ok false => .ok false
       else .ok false) := by
    unfold IsUserAuthorized
    rw [hfind]
  rw [hbody]
  by_cases horg : host.orgID = orgID
  · rw [if_neg (not_not_intro horg)]
    by_cases hdir : host.userIDs.contains userID = true
    · rw [if_pos hdir]
      have hmem : userID ∈ host.userIDs := by simpa using hdir
      simp [horg, hmem]
    · have hdir' : host.userIDs.contains userID = false := by
        simpa using hdir
      have hmem' : userID ∉ host.userIDs := by simpa using hdir'
      rw [if_neg hdir]
      by_cases hteam : 0 < host.teamIDs.length
      · rw [if_pos hteam]
        have hne : host.teamIDs.isEmpty = false := by
          cases h : host.teamIDs with
          | nil => rw [h] at hteam; simp at hteam
          | cons a l => simp [h]
        unfold isUserInTeams
        rw [if_neg (by simp [hne])]
        cases hany : db.teams.any fun t =>
            t.orgID == orgID && host.teamIDs.contains t.teamID && t.userIDs.contains userID with
        | false => simp [horg, hdir', hmem', hany]
        | true => simp [horg, hdir', hmem', hany]
      · rw [if_neg hteam]
        have hnil : host.teamIDs = [] := by
          cases h : host.teamIDs with
          | nil => rfl
          | cons a l => rw [h] at hteam; simp at hteam
        simp [horg, hdir', hmem', hnil]
  · rw [if_pos horg]
    have : (host.orgID == orgID) = false := by simpa using horg
    simp [this]

/-! ### C1 -/

/-- C1: whenever a backend host record is reachable by connect ID,
`IsUserAuthorized` returns `true` iff the host's org equals the caller's org
AND (the user is directly in the host's `user_ids`, OR some team of the
host's `team_ids` with that same org lists the user); when the orgs differ
it returns `false` regardless of any membership. -/
theorem isUserAuthorized_decision (db : DB) (userID orgID connectID : String)
    (host : BackendHost) (hfind : GetBackendHostByConnectID db connectID = .ok host) :
    (IsUserAuthorized db userID orgID connectID = .ok true ↔
      (host.orgID = orgID ∧ (userID ∈ host.userIDs ∨ ∃ t ∈ db.teams,
        t.orgID = orgID ∧ t.teamID ∈ host.teamIDs ∧ userID ∈ t.userIDs))) ∧
    (host.orgID ≠ orgID → IsUserAuthorized db userID orgID connectID = .ok false) := by
  have heq := isUserAuthorized_eq_ok db userID orgID connectID host hfind
  constructor
  · rw [heq]
    simp [List.any_eq_true, Bool.and_eq_true, Bool.or_eq_true, beq_iff_eq, and_assoc]
  · intro h
    rw [heq]
    have : (host.orgID == orgID) = false := by simpa using h
    simp [this]

/-- Witness for C1 at a concrete database: a user granted only via team
membership is authorized. -/
theorem isUserAuthorized_decision_witness :
    IsUserAuthorized ⟨[⟨"h2", "10.0.0.1:22", "org1", [], ["t1"]⟩], [⟨"t1", "org1", ["u"]⟩]⟩
        "u" "org1" "h2" = .ok true := by
  exact (isUserAuthorized_decision ⟨[⟨"h2", "10.0.0.1:22", "org1", [], ["t1"]⟩],
      [⟨"t1", "org1", ["u"]⟩]⟩ "u" "org1" "h2" ⟨"h2", "10.0.0.1:22", "org1", [], ["t1"]⟩
      (by decide)).1.mpr (by decide)

/-! ### C7 -/

/-- C7: `RouteConnection` fails with the not-authorized error whenever the
authorization check returns `false`; when it returns `true` it re-fetches
the host and returns `RouteTarget` with the host's internal address, except
that an empty internal address fails with the no-internal-address error. -/
theorem routeConnection_decision (db : DB) (userID orgID connectID : String)
    (host : BackendHost) (hfind : GetBackendHostByConnectID db connectID = .ok host) :
    (IsUserAuthorized db userID orgID connectID = .ok false →
      RouteConnection db userID orgID connectID = .error (msgNotAuthorized userID connectID)) ∧
    (IsUserAuthorized db userID orgID connectID = .ok true →
      (host.internalIPAddr = "" →
        RouteConnection db userID orgID connectID = .error (msgNoInternalAddr connectID)) ∧
      (host.internalIPAddr ≠ "" →
        RouteConnection db userID orgID connectID =
          .ok { backendAddr := host.internalIPAddr, connectID := connectID })) := by
  constructor
  · intro hfalse
    unfold RouteConnection
    rw [hfalse]
  · intro htrue
    constructor
    · intro hempty
      unfold RouteConnection
      rw [htrue, hfind]
      simp [hempty]
    · intro hne
      unfold RouteConnection
      rw [htrue, hfind]
      simp [hne]

/-- Witness for C7 at a concrete database: both the denial result and the
successful `RouteTarget` result. -/
theorem routeConnection_decision_witness :
    RouteConnection ⟨[⟨"h2", "10.0.0.1:22", "org1", ["u"], []⟩], []⟩ "v" "org1" "h2"
        = .error (msgNotAuthorized "v" "h2") ∧
    RouteConnection ⟨[⟨"h2", "10.0.0.1:22", "org1", ["u"], []⟩], []⟩ "u" "org1" "h2"
        = .ok ⟨"10.0.0.1:22", "h2"⟩ := by
  constructor
  · exact (routeConnection_decision ⟨[⟨"h2", "10.0.0.1:22", "org1", ["u"], []⟩], []⟩
      "v" "org1" "h2" ⟨"h2", "10.0.0.1:22", "org1", ["u"], []⟩ (by decide)).1 (by decide)
  · exact ((routeConnection_decision ⟨[⟨"h2", "10.0.0.1:22", "org1", ["u"], []⟩], []⟩
      "u" "org1" "h2" ⟨"h2", "10.0.0.1:22", "org1", ["u"], []⟩ (by decide)).2 (by decide)).2
      (by decide)

theorem msgAuthCheckFailed_ne_msgNotAuthorized (e u c : String) :
    msgAuthCheckFailed e ≠ msgNotAuthorized u c := by
  apply ne_of_head4_ne
  unfold msgAuthCheckFailed msgNotAuthorized
  rw [head4_append _ _ (by decide), head4_append _ _ (by decide)]
  decide

theorem okLine_ne_sendErrorLine (m : String) : "OK\n" ≠ sendErrorLine m := by
  apply ne_of_head4_ne
  unfold sendErrorLine
  rw [head4_append _ _ (by decide)]
  decide

theorem sendErrorLine_hasPfx (m : String) : hasPfx (sendErrorLine m) "ERROR:" = true := by
  unfold hasPfx sendErrorLine
  apply List.isPrefixOf_iff_prefix.mpr
  rw [String.data_append]
  exact List.IsPrefix.trans (by decide) (List.prefix_append _ _)

theorem handleConnectionClientWrites_route (identity : UserIdentity) (chunks : List String)
    (db : DB) (dialOK : String → Bool) (connectID : String)
    (hread : readConnectID chunks = .ok connectID) :
    handleConnectionClientWrites (.ok identity) chunks db dialOK =
      (match RouteConnection db identity.userID identity.orgID connectID with
       | .error e => [sendErrorLine ("routing failed: " ++ e)]
       | .ok target => if dialOK target.backendAddr then ["OK\n"] else []) := by
  unfold handleConnectionClientWrites
  rw [hread]

/-! ### C2 -/

/-- C2 counterexample: two failing `RouteConnection` invocations, one on a
connect ID with no backend host and one on an existing host whose user is
not permitted, produce different client-facing error texts (and hence
different `ERROR` lines), so the two failure causes are distinguishable. -/
theorem route_failure_messages_differ_cex :
    RouteConnection ⟨[⟨"h2", "10.0.0.1:22", "org1", [], []⟩], []⟩ "u" "org1" "h1"
        = .error (msgAuthCheckFailed (msgNoHost "h1")) ∧
    RouteConnection ⟨[⟨"h2", "10.0.0.1:22", "org1", [], []⟩], []⟩ "u" "org1" "h2"
        = .error (msgNotAuthorized "u" "h2") ∧
    msgAuthCheckFailed (msgNoHost "h1") ≠ msgNotAuthorized "u" "h2" ∧
    sendErrorLine ("routing failed: " ++ msgAuthCheckFailed (msgNoHost "h1"))
        ≠ sendErrorLine ("routing failed: " ++ msgNotAuthorized "u" "h2") := by decide

/-- C2 (amended): the missing-host failure of `RouteConnection` carries the
wrapped "no backend host found" text while the not-permitted failure carries
the "is not authorized" text, and no instantiation of the two texts ever
coincides: the two failure causes are always distinguishable from the error
text returned to the caller. -/
theorem route_failure_messages (db : DB) (userID orgID connectID : String) :
    (∀ e, GetBackendHostByConnectID db connectID = .error e →
      RouteConnection db userID orgID connectID = .error (msgAuthCheckFailed e)) ∧
    (IsUserAuthorized db userID orgID connectID = .ok false →
      RouteConnection db userID orgID connectID = .error (msgNotAuthorized userID connectID)) ∧
    (∀ e u c, msgAuthCheckFailed e ≠ msgNotAuthorized u c) := by
  refine ⟨?_, ?_, fun e u c => msgAuthCheckFailed_ne_msgNotAuthorized e u c⟩
  · intro e hget
    have hauth : IsUserAuthorized db userID orgID connectID = .error e := by
      unfold IsUserAuthorized
      rw [hget]
    unfold RouteConnection
    rw [hauth]
  · intro hfalse
    unfold RouteConnection
    rw [hfalse]

/-- Witness for the amended C2 at a concrete database. -/
theorem route_failure_messages_witness :
    RouteConnection ⟨[], []⟩ "u" "org1" "h1" = .error (msgAuthCheckFailed (msgNoHost "h1")) ∧
    msgAuthCheckFailed (msgNoHost "h1") ≠ msgNotAuthorized "u" "h1" := by
  refine ⟨(route_failure_messages ⟨[], []⟩ "u" "org1" "h1").1 (msgNoHost "h1") (by decide),
    (route_failure_messages ⟨[], []⟩ "u" "org1" "h1").2.2 (msgNoHost "h1") "u" "h1"⟩

/-! ### C5 -/

/-- C5 counterexample: a connection whose routing succeeds and whose backend
dial then fails writes nothing at all to the client — in particular no
`ERROR:` line carrying the dial failure. -/
theorem dial_failure_writes_nothing_cex :
    RouteConnection ⟨[⟨"h2", "10.0.0.1:22", "org1", ["u"], []⟩], []⟩ "u" "org1" "h2"
        = .ok ⟨"10.0.0.1:22", "h2"⟩ ∧
    handleConnectionClientWrites (.ok ⟨"u", "org1", "example.com"⟩) ["h2\n"]
        ⟨[⟨"h2", "10.0.0.1:22", "org1", ["u"], []⟩], []⟩ (fun _ => false) = [] := by decide

/-- C5 (amended): on a backend dial failure the handler logs and closes the
connection without writing any line to the client; `ERROR:` lines are
written only for routing failures. -/
theorem dial_failure_silent (identity : UserIdentity) (chunks : List String) (db : DB)
    (dialOK : String → Bool) (connectID : String) (target : RouteTarget)
    (hread : readConnectID chunks = .ok connectID)
    (hroute : RouteConnection db identity.userID identity.orgID connectID = .ok target)
    (hdial : dialOK target.backendAddr = false) :
    handleConnectionClientWrites (.ok identity) chunks db dialOK = [] := by
  rw [handleConnectionClientWrites_route identity chunks db dialOK connectID hread, hroute]
  simp [hdial]

/-- Witness for the amended C5 at a concrete connection. -/
theorem dial_failure_silent_witness :
    handleConnectionClientWrites (.ok ⟨"u", "org1", "example.com"⟩) ["h2\n"]
        ⟨[⟨"h2", "10.0.0.1:22", "org1", ["u"], []⟩], []⟩ (fun _ => false) = [] := by
  exact dial_failure_silent ⟨"u", "org1", "example.com"⟩ ["h2\n"]
    ⟨[⟨"h2", "10.0.0.1:22", "org1", ["u"], []⟩], []⟩ (fun _ => false) "h2"
    ⟨"10.0.0.1:22", "h2"⟩ (by decide) (by decide) rfl

/-! ### C6 -/

/-- C6 (code bug): `readConnectID` performs a single bounded `Read` instead
of reading until a newline (the code's own comment says `Read until
newline`): the same client bytes `abc\n` delivered in one chunk give the key
`abc`, but delivered as `ab` then `c\n` give the truncated key `ab`.  The
trailing CR/LF stripping and the silent close on an empty key (client sends
just a newline: no response line is written) do hold. -/
theorem readConnectID_chunk_boundary :
    readConnectID ["ab", "c\n"] = .ok "ab" ∧
    readConnectID ["abc\n"] = .ok "abc" ∧
    readConnectID ["abc\r\n"] = .ok "abc" ∧
    readConnectID ["\n"] = .error "empty connect_id" ∧
    handleConnectionClientWrites (.ok ⟨"u", "org1", "example.com"⟩) ["\n"]
        ⟨[⟨"h2", "10.0.0.1:22", "org1", ["u"], []⟩], []⟩ (fun _ => true) = [] := by decide

/-! ### C9 -/

/-- C9: `OK` is written only when both the routing call and the backend dial
have succeeded; on a routing denial the server writes exactly one line, that
line begins with `ERROR:`, and `OK` is never written on that connection. -/
theorem ok_line_requires_route_and_dial (idRes : Except String UserIdentity)
    (chunks : List String) (db : DB) (dialOK : String → Bool) :
    (∀ identity connectID e, idRes = .ok identity →
      readConnectID chunks = .ok connectID →
      RouteConnection db identity.userID identity.orgID connectID = .error e →
      handleConnectionClientWrites idRes chunks db dialOK
          = [sendErrorLine ("routing failed: " ++ e)] ∧
        hasPfx (sendErrorLine ("routing failed: " ++ e)) "ERROR:" = true ∧
        "OK\n" ∉ handleConnectionClientWrites idRes chunks db dialOK) ∧
    ("OK\n" ∈ handleConnectionClientWrites idRes chunks db dialOK →
      ∃ identity connectID target, idRes = .ok identity ∧
        readConnectID chunks = .ok connectID ∧
        RouteConnection db identity.userID identity.orgID connectID = .ok target ∧
        dialOK target.backendAddr = true) := by
  constructor
  · intro identity connectID e hid hread hroute
    have htrace : handleConnectionClientWrites idRes chunks db dialOK
        = [sendErrorLine ("routing failed: " ++ e)] := by
      rw [hid, handleConnectionClientWrites_route identity chunks db dialOK connectID hread,
        hroute]
    refine ⟨htrace, sendErrorLine_hasPfx _, ?_⟩
    rw [htrace]
    intro hmem
    exact okLine_ne_sendErrorLine _ (List.mem_singleton.mp hmem)
  · intro hmem
    cases hid : idRes with
    | error e =>
      rw [hid] at hmem
      simp [handleConnectionClientWrites] at hmem
    | ok identity =>
      cases hread : readConnectID chunks with
      | error e =>
        rw [hid] at hmem
        unfold handleConnectionClientWrites at hmem
        rw [hread] at hmem
        simp at hmem
      | ok connectID =>
        rw [hid,
          handleConnectionClientWrites_route identity chunks db dialOK connectID hread] at hmem
        cases hroute : RouteConnection db identity.userID identity.orgID connectID with
        | error e =>
          rw [hroute] at hmem
          simp at hmem
          exact absurd hmem (okLine_ne_sendErrorLine _)
        | ok target =>
          rw [hroute] at hmem
          cases hdial : dialOK target.backendAddr with
          | false => simp [hdial] at hmem
          | true => exact ⟨identity, connectID, target, rfl, rfl, hroute, hdial⟩

/-- Witness for C9 at a concrete denied connection. -/
theorem ok_line_requires_route_and_dial_witness :
    handleConnectionClientWrites (.ok ⟨"u", "org1", "example.com"⟩) ["h1\n"] ⟨[], []⟩
        (fun _ => true)
        = [sendErrorLine ("routing failed: " ++ msgAuthCheckFailed (msgNoHost "h1"))] ∧
      hasPfx (sendErrorLine ("routing failed: " ++ msgAuthCheckFailed (msgNoHost "h1")))
        "ERROR:" = true ∧
      "OK\n" ∉ handleConnectionClientWrites (.ok ⟨"u", "org1", "example.com"⟩) ["h1\n"]
        ⟨[], []⟩ (fun _ => true) := by
  exact (ok_line_requires_route_and_dial (.ok ⟨"u", "org1", "example.com"⟩) ["h1\n"] ⟨[], []⟩
    (fun _ => true)).1 ⟨"u", "org1", "example.com"⟩ "h1" (msgAuthCheckFailed (msgNoHost "h1"))
    rfl (by decide) (by decide)

/-! ### Helper lemmas for identity extraction -/

/-- Shape of the split path accepted by `parsePathSegs`: exactly
`["orgs", o, "users", u]` with `o` and `u` non-empty. -/
def pathSegsOK : List String → Bool
  | [p0, p1, p2, p3] => p0 == "orgs" && p2 == "users" && p1 != "" && p3 != ""
  | _ => false

/-- The path condition of the spec: after dropping one leading slash the
path splits into exactly the four non-empty segments
`orgs/<org-id>/users/<user-id>`. -/
abbrev PathOK (uri : URL) : Prop := pathSegsOK (goSplit (trimPfx uri.path "/") '/') = true

theorem parsePathSegs_ok_inversion (host pathStr : String) (segs : List String)
    (id : UserIdentity) (h : parsePathSegs host pathStr segs = .ok id) :
    pathSegsOK segs = true := by
  rcases segs with _ | ⟨p0, _ | ⟨p1, _ | ⟨p2, _ | ⟨p3, _ | ⟨p4, tail⟩⟩⟩⟩⟩
  · simp [parsePathSegs] at h
  · simp [parsePathSegs] at h
  · simp [parsePathSegs] at h
  · simp [parsePathSegs] at h
  · simp only [parsePathSegs] at h
    by_cases hp0 : p0 ≠ "orgs"
    · rw [if_pos hp0] at h
      exact absurd h (by simp)
    · rw [if_neg hp0] at h
      by_cases hp2 : p2 ≠ "users"
      · rw [if_pos hp2] at h
        exact absurd h (by simp)
      · rw [if_neg hp2] at h
        by_cases hp1 : p1 = ""
        · rw [if_pos hp1] at h
          exact absurd h (by simp)
        · rw [if_neg hp1] at h
          by_cases hp3 : p3 = ""
          · rw [if_pos hp3] at h
            exact absurd h (by simp)
          · simp [pathSegsOK, not_not.mp hp0, not_not.mp hp2, hp1, hp3]
  · simp [parsePathSegs] at h

theorem parseSPIFFEURI_ok_inversion (uri : URL) (issuer : String) (id : UserIdentity)
    (h : parseSPIFFEURI uri issuer = .ok id) :
    uri.scheme = "spiffe" ∧ uri.host = issuer ∧ PathOK uri := by
  unfold parseSPIFFEURI at h
  by_cases h1 : uri.scheme ≠ "spiffe"
  · rw [if_pos h1] at h
    exact absurd h (by simp)
  · rw [if_neg h1] at h
    by_cases h2 : uri.host ≠ issuer
    · rw [if_pos h2] at h
      exact absurd h (by simp)
    · rw [if_neg h2] at h
      exact ⟨not_not.mp h1, not_not.mp h2,
        parsePathSegs_ok_inversion uri.host uri.path _ id h⟩

/-! ### C3 -/

/-- C3: the example SAN URI `spiffe://example.com/orgs/org-123/users/user-456`
extracts to `UserIdentity` with user `user-456`, org `org-123` and issuer
`example.com`; any URI whose host differs from the expected issuer or whose
path is not exactly the four non-empty segments `orgs/<org>/users/<user>`
fails to parse; and the extractor returns the identity of the first
candidate URI that parses successfully. -/
theorem spiffe_parsing_and_extraction :
    (ExtractUserIdentity [⟨"spiffe", "example.com", "/orgs/org-123/users/user-456"⟩]
        "example.com" = .ok ⟨"user-456", "org-123", "example.com"⟩) ∧
    (∀ (uri : URL) (issuer : String), uri.host ≠ issuer ∨ ¬ PathOK uri →
      ∃ e, parseSPIFFEURI uri issuer = .error e) ∧
    (∀ (pre post : List URL) (u : URL) (issuer : String) (id : UserIdentity),
      (∀ v ∈ pre, ∀ i, parseSPIFFEURI v issuer ≠ .ok i) →
      parseSPIFFEURI u issuer = .ok id →
      ExtractUserIdentity (pre ++ u :: post) issuer = .ok id) := by
  refine ⟨by decide, ?_, ?_⟩
  · intro uri issuer hbad
    cases hp : parseSPIFFEURI uri issuer with
    | error e => exact ⟨e, rfl⟩
    | ok id =>
      rcases parseSPIFFEURI_ok_inversion uri issuer id hp with ⟨_, hhost, hpath⟩
      rcases hbad with hb | hb
      · exact absurd hhost hb
      · exact absurd hpath hb
  · intro pre post u issuer id
    induction pre with
    | nil =>
      intro _ hu
      have hscheme : u.scheme = "spiffe" := (parseSPIFFEURI_ok_inversion u issuer id hu).1
      have hpfx : hasPfx u.scheme "spiffe" = true := by
        rw [hscheme]
        decide
      rw [List.nil_append]
      simp only [ExtractUserIdentity]
      rw [if_pos hpfx, hu]
    | cons v rest ih =>
      intro hpre hu
      have hv := hpre v (List.mem_cons_self v rest)
      rw [List.cons_append]
      simp only [ExtractUserIdentity]
      cases hpv : parseSPIFFEURI v issuer with
      | ok i => exact absurd hpv (hv i)
      | error e =>
        by_cases hpfx : hasPfx v.scheme "spiffe" = true
        · rw [if_pos hpfx]
          exact ih (fun w hw => hpre w (List.mem_cons_of_mem v hw)) hu
        · rw [if_neg hpfx]
          exact ih (fun w hw => hpre w (List.mem_cons_of_mem v hw)) hu

/-- Witness for C3: a malformed path is rejected, and with a first candidate
that fails to parse the extractor returns the second, successfully parsing,
URI's identity. -/
theorem spiffe_parsing_and_extraction_witness :
    (∃ e, parseSPIFFEURI ⟨"spiffe", "example.com", "/orgs/org-123/users"⟩ "example.com"
        = .error e) ∧
    ExtractUserIdentity [⟨"spiffex", "example.com", "/orgs/o/users/u"⟩,
        ⟨"spiffe", "example.com", "/orgs/org-123/users/user-456"⟩] "example.com"
      = .ok ⟨"user-456", "org-123", "example.com"⟩ := by
  constructor
  · exact spiffe_parsing_and_extraction.2.1 ⟨"spiffe", "example.com", "/orgs/org-123/users"⟩
      "example.com" (Or.inr (by decide))
  · exact spiffe_parsing_and_extraction.2.2 [⟨"spiffex", "example.com", "/orgs/o/users/u"⟩] []
      ⟨"spiffe", "example.com", "/orgs/org-123/users/user-456"⟩ "example.com"
      ⟨"user-456", "org-123", "example.com"⟩
      (by
        intro v hv i h
        rw [List.mem_singleton] at hv
        subst hv
        rw [(by decide : parseSPIFFEURI ⟨"spiffex", "example.com", "/orgs/o/users/u"⟩
          "example.com" = .error (msgBadScheme "spiffex"))] at h
        exact Except.noConfusion h)
      (by decide)

/-! ### C10 -/

/-- Spec side of the refinement claim C10: the same scan as
`ExtractUserIdentity` but restricted to URIs whose scheme is exactly
`spiffe` instead of the prefix test. -/
def ExtractUserIdentityExactScheme : List URL → String → Except String UserIdentity
  | [], _ => .error msgNoValidSpiffe
  | uri :: rest, expectedIssuer =>
    if uri.scheme = "spiffe" then
      match parseSPIFFEURI uri expectedIssuer with
      | .ok identity => .ok identity
      | .error _ => ExtractUserIdentityExactScheme rest expectedIssuer
    else ExtractUserIdentityExactScheme rest expectedIssuer

/-- C10: although `ExtractUserIdentity` selects candidates by the prefix test
on the scheme, any candidate whose scheme is not exactly `spiffe` is rejected
inside `parseSPIFFEURI`, so extraction coincides with the scan over URIs
whose scheme is exactly `spiffe`; a scheme such as `spiffex` is never
accepted. -/
theorem extract_scheme_refinement (uris : List URL) (issuer : String) :
    ExtractUserIdentity uris issuer = ExtractUserIdentityExactScheme uris issuer := by
  induction uris with
  | nil => rfl
  | cons u rest ih =>
    simp only [ExtractUserIdentity, ExtractUserIdentityExactScheme]
    by_cases hs : u.scheme = "spiffe"
    · have hpfx : hasPfx u.scheme "spiffe" = true := by
        rw [hs]
        decide
      rw [if_pos hpfx, if_pos hs]
      cases hp : parseSPIFFEURI u issuer with
      | ok i => rfl
      | error e => exact ih
    · by_cases hpfx : hasPfx u.scheme "spiffe" = true
      · have hparse : parseSPIFFEURI u issuer = .error (msgBadScheme u.scheme) := by
          unfold parseSPIFFEURI
          rw [if_pos hs]
        rw [if_pos hpfx, if_neg hs, hparse]
        exact ih
      · rw [if_neg hpfx, if_neg hs]
        exact ih

/-! ### C8 -/

theorem msgIssuerMismatch_ne_msgBadPathFormat (a b p : String) :
    msgIssuerMismatch a b ≠ msgBadPathFormat p := by
  apply ne_of_head4_ne
  unfold msgIssuerMismatch msgBadPathFormat
  rw [head4_append _ _ (by decide), head4_append _ _ (by decide)]
  decide

theorem msgIssuerMismatch_ne_msgNoValidSpiffe (a b : String) :
    msgIssuerMismatch a b ≠ msgNoValidSpiffe := by
  apply ne_of_head4_ne
  unfold msgIssuerMismatch msgNoValidSpiffe
  rw [head4_append _ _ (by decide)]
  decide

theorem msgBadPathFormat_ne_msgNoValidSpiffe (p : String) :
    msgBadPathFormat p ≠ msgNoValidSpiffe := by
  apply ne_of_head4_ne
  unfold msgBadPathFormat msgNoValidSpiffe
  rw [head4_append _ _ (by decide)]
  decide

theorem extract_error_generic (uris : List URL) (issuer : String) :
    ∀ e, ExtractUserIdentity uris issuer = .error e → e = msgNoValidSpiffe := by
  induction uris with
  | nil =>
    intro e h
    simp only [ExtractUserIdentity, Except.error.injEq] at h
    exact h.symm
  | cons u rest ih =>
    intro e h
    simp only [ExtractUserIdentity] at h
    by_cases hpfx : hasPfx u.scheme "spiffe" = true
    · rw [if_pos hpfx] at h
      cases hp : parseSPIFFEURI u issuer with
      | ok i =>
        rw [hp] at h
        simp at h
      | error e2 =>
        rw [hp] at h
        exact ih e h
    · rw [if_neg hpfx] at h
      exact ih e h

/-- C8 counterexample: a certificate whose only SPIFFE URI has a mismatched
issuer fails extraction with exactly the same generic error as a certificate
with no SPIFFE URI at all — the returned error does not identify which
condition occurred, even though `parseSPIFFEURI` produced a distinct
issuer-mismatch error internally. -/
theorem extract_error_never_identifies_cause_cex :
    ExtractUserIdentity [⟨"spiffe", "evil.com", "/orgs/o/users/u"⟩] "example.com"
        = .error msgNoValidSpiffe ∧
    ExtractUserIdentity [] "example.com" = .error msgNoValidSpiffe ∧
    parseSPIFFEURI ⟨"spiffe", "evil.com", "/orgs/o/users/u"⟩ "example.com"
        = .error (msgIssuerMismatch "example.com" "evil.com") ∧
    msgIssuerMismatch "example.com" "evil.com" ≠ msgNoValidSpiffe := by decide

/-- C8 (amended): the three failure conditions produce three distinct error
kinds inside `parseSPIFFEURI` (issuer mismatch, malformed path, and — for
the extractor — no candidate at all), but `ExtractUserIdentity` discards the
per-URI errors and fails with the single generic message in every case, so
the error returned to the caller never identifies the condition. -/
theorem extract_error_kinds (uris : List URL) (issuer : String) :
    (∀ e, ExtractUserIdentity uris issuer = .error e → e = msgNoValidSpiffe) ∧
    (∀ uri : URL, uri.scheme = "spiffe" → uri.host ≠ issuer →
      parseSPIFFEURI uri issuer = .error (msgIssuerMismatch issuer uri.host)) ∧
    (∀ uri : URL, uri.scheme = "spiffe" → uri.host = issuer →
      (goSplit (trimPfx uri.path "/") '/').length ≠ 4 →
      parseSPIFFEURI uri issuer = .error (msgBadPathFormat uri.path)) ∧
    (∀ a b p, msgIssuerMismatch a b ≠ msgBadPathFormat p ∧
      msgIssuerMismatch a b ≠ msgNoValidSpiffe ∧
      msgBadPathFormat p ≠ msgNoValidSpiffe) := by
  refine ⟨extract_error_generic uris issuer, ?_, ?_, fun a b p =>
    ⟨msgIssuerMismatch_ne_msgBadPathFormat a b p, msgIssuerMismatch_ne_msgNoValidSpiffe a b,
      msgBadPathFormat_ne_msgNoValidSpiffe p⟩⟩
  · intro uri hs hh
    unfold parseSPIFFEURI
    rw [if_neg (not_not_intro hs), if_pos hh]
  · intro uri hs hh hlen
    unfold parseSPIFFEURI
    rw [if_neg (not_not_intro hs), if_neg (not_not_intro hh)]
    rcases hsplit : goSplit (trimPfx uri.path "/") '/'
      with _ | ⟨p0, _ | ⟨p1, _ | ⟨p2, _ | ⟨p3, _ | ⟨p4, tail⟩⟩⟩⟩⟩
    · simp [parsePathSegs]
    · simp [parsePathSegs]
    · simp [parsePathSegs]
    · simp [parsePathSegs]
    · rw [hsplit] at hlen
      simp at hlen
    · simp [parsePathSegs]

/-- Witness for the amended C8: the distinct internal parse errors at
concrete URIs, and the generic extractor error. -/
theorem extract_error_kinds_witness :
    parseSPIFFEURI ⟨"spiffe", "evil.com", "/x"⟩ "example.com"
        = .error (msgIssuerMismatch "example.com" "evil.com") ∧
    parseSPIFFEURI ⟨"spiffe", "example.com", "/orgs/o/users"⟩ "example.com"
        = .error (msgBadPathFormat "/orgs/o/users") ∧
    msgNoValidSpiffe = msgNoValidSpiffe := by
  refine ⟨(extract_error_kinds [] "example.com").2.1 ⟨"spiffe", "evil.com", "/x"⟩ rfl
      (by decide),
    (extract_error_kinds [] "example.com").2.2.1 ⟨"spiffe", "example.com", "/orgs/o/users"⟩
      rfl rfl (by decide),
    (extract_error_kinds [] "example.com").1 msgNoValidSpiffe (by decide)⟩

/-! ### C4 -/

theorem subOccurs_iff (t l : List Char) : subOccurs t l = true ↔ t <:+: l := by
  induction l with
  | nil => simp [subOccurs, List.isEmpty_iff, List.infix_nil]
  | cons c rest ih =>
    simp only [subOccurs, Bool.or_eq_true, ih, List.isPrefixOf_iff_prefix]
    exact (List.infix_cons_iff).symm

theorem containsSub_iff (s sub : String) : containsSub s sub = true ↔ sub.data <:+: s.data :=
  subOccurs_iff sub.data s.data

theorem hasSfx_iff (s suf : String) : hasSfx s suf = true ↔ suf.data <:+ s.data := by
  simp [hasSfx, List.isSuffixOf_iff_suffix]

theorem matchesIssuer_iff (domain expected : String) :
    matchesIssuer domain expected = true ↔
      ((trimPfx domain "*.").data.map Char.toLower
          = (trimPfx expected "*.").data.map Char.toLower ∨
        ("." ++ trimPfx expected "*.").data <:+ (trimPfx domain "*.").data) := by
  unfold matchesIssuer
  simp [eqFold, hasSfx_iff]

/-- C4 counterexample: an issuer DN whose common name neither equals the
expected domain (up to case and a `*.` wildcard) nor is a subdomain of it
still passes `ValidateIssuerMatch`, because the rendered DN contains the
expected domain as a substring. -/
theorem validateIssuerMatch_substring_cex :
    ValidateIssuerMatch "notexample.com" "CN=notexample.com" "example.com" = .ok () ∧
    matchesIssuer "notexample.com" "example.com" = false := by decide

/-- C4 (amended): `ValidateIssuerMatch` succeeds iff the issuer common name
is non-empty and matches the expected domain up to a `*.` wildcard by
case-folded equality or a `.`-separated domain suffix, OR the expected
domain occurs as a substring anywhere in the rendered issuer DN — so a mere
substring occurrence elsewhere in the DN does satisfy the check. -/
theorem validateIssuerMatch_characterization (cn dn expected : String) :
    ValidateIssuerMatch cn dn expected = .ok () ↔
      ((cn ≠ "" ∧
        ((trimPfx cn "*.").data.map Char.toLower
            = (trimPfx expected "*.").data.map Char.toLower ∨
          ("." ++ trimPfx expected "*.").data <:+ (trimPfx cn "*.").data)) ∨
        expected.data <:+: dn.data) := by
  unfold ValidateIssuerMatch
  by_cases h1 : cn ≠ "" ∧ matchesIssuer cn expected = true
  · rw [if_pos h1]
    constructor
    · intro _
      exact Or.inl ⟨h1.1, (matchesIssuer_iff cn expected).mp h1.2⟩
    · intro _
      rfl
  · rw [if_neg h1]
    by_cases h2 : containsSub dn expected = true
    · rw [if_pos h2]
      constructor
      · intro _
        exact Or.inr ((containsSub_iff dn expected).mp h2)
      · intro _
        rfl
    · rw [if_neg h2]
      constructor
      · intro h
        exact absurd h (by simp)
      · intro hr
        rcases hr with ⟨hcn, hm⟩ | hsub
        · exact absurd ⟨hcn, (matchesIssuer_iff cn expected).mpr hm⟩ h1
        · exact absurd ((containsSub_iff dn expected).mpr hsub) h2

end Mtlsproxy
